import Mathlib

/-
Shallow embedding of the fraud_watch risk scoring core:
  calculate_fraud_risk        src/backend/fraud_engine.py, lines 25-92
  category banding            src/backend/main.py, lines 198-203
  calculate_benford_deviation src/backend/ml/benford.py, lines 4-52
Python floats (amounts, scores, probabilities) are modelled as exact
rationals; the factor strings the engine appends are modelled as tagged
values of an inductive type, kept in the order the code appends them.
-/

/-- One disbursement as consumed by the engine: a dict with keys
amount and date (the date is never read by the scoring rules). -/
structure Payment where
  amount : ℚ
  date : String
deriving DecidableEq

/-- The input dict of calculate_fraud_risk. Every field is optional,
mirroring the data.get calls with defaults at lines 28-32. -/
structure InputData where
  revenue : Option ℚ
  capacity : Option ℤ
  status : Option String
  payments : Option (List Payment)
  ein : Option String

/-- The lightweight feature row built for the classifier at lines 76-81
of fraud_engine.py. -/
structure Features where
  revenue : ℚ
  capacity : ℤ
  payment_count : ℕ
  avg_payment : ℚ

/-- The optional ML model: applied to the feature row it yields the
class-1 probability of predict_proba; a raised exception or malformed
output (caught at lines 86-87) is modelled as none. -/
def Classifier : Type := Features → Option ℚ

/-- Triggered risk factors, one tag per factor string the code appends.
The rule 5 string carries the coefficient of variation, modelled here by
its square (the code computes cv with a square root); the ML flag string
carries the probability scaled to 0-100. -/
inductive Factor where
  | excludedEntity
  | inactiveEntity
  | suspiciousFrequency
  | outlierAmounts
  | highVariance (cvSq : ℚ)
  | mlHighRisk (mlProb : ℚ)
deriving DecidableEq

/-- The mock exclusion list at line 6 of fraud_engine.py. -/
def EXCLUDED_EINS : List String := ["411240047", "999999999"]

/-- ASCII lowering of one character, the behaviour of str.lower on the
ASCII status strings the engine compares. -/
def lowerChar (c : Char) : Char :=
  if 65 ≤ c.toNat ∧ c.toNat ≤ 90 then Char.ofNat (c.toNat + 32) else c

/-- str.lower, applied characterwise. -/
def lowerStr (s : String) : String := ⟨s.data.map lowerChar⟩

/-- np.mean; the engine only evaluates it on lists with at least 2
elements, the 0 default is never reached from the rules. -/
def meanQ (xs : List ℚ) : ℚ := if xs.length = 0 then 0 else xs.sum / xs.length

/-- Population variance, the square of np.std (numpy defaults to the
population form, ddof = 0). -/
def popVar (xs : List ℚ) : ℚ :=
  if xs.length = 0 then 0 else ((xs.map fun a => (a - meanQ xs) ^ 2).sum) / xs.length

/-- np.percentile with the default linear interpolation between closest
ranks: on the sorted data s of length n, the virtual index is
h = q * (n - 1) / 100 and the value is
s[floor h] + (h - floor h) * (s[ceil h] - s[floor h]). The engine only
calls this on lists of length at least 4; the 0 default for the empty
list is never reached. -/
def percentile (xs : List ℚ) (q : ℚ) : ℚ :=
  let s := List.insertionSort (· ≤ ·) xs
  let n := s.length
  if n = 0 then 0
  else
    let h : ℚ := q * (n - 1) / 100
    let lo := s.getD (⌊h⌋.toNat) 0
    let hi := s.getD (⌈h⌉.toNat) 0
    lo + (h - ⌊h⌋) * (hi - lo)

/-- Rule 4 of fraud_engine.py (lines 49-58): at least 4 payments and
some amount strictly outside the IQR fences. The list of amounts has
the same length as the payments list it is mapped from. -/
def rule4Triggers (amounts : List ℚ) : Bool :=
  if 4 ≤ amounts.length then
    let q1 := percentile amounts 25
    let q3 := percentile amounts 75
    let iqr := q3 - q1
    let upper_bound := q3 + 1.5 * iqr
    let lower_bound := q1 - 1.5 * iqr
    amounts.any fun a => decide (upper_bound < a ∨ a < lower_bound)
  else false

/-- Rule 5 of fraud_engine.py (lines 60-69): more than one payment,
positive mean, and cv = std / mean above 1.5. The comparison
std / mean > 1.5 is written on squares as (1.5 * mean)^2 < variance,
which is equivalent because mean > 0 holds in this branch and a
standard deviation is non-negative. -/
def rule5Triggers (amounts : List ℚ) : Bool :=
  if 1 < amounts.length then
    let m := meanQ amounts
    if 0 < m then decide ((1.5 * m) ^ 2 < popVar amounts) else false
  else false

/-- The square of the coefficient of variation carried by the rule 5
factor tag. -/
def cvSq (amounts : List ℚ) : ℚ := popVar amounts / (meanQ amounts) ^ 2

/-- One table row: a trigger condition, a point value, and the factor
tag appended when the rule fires. -/
structure Rule where
  cond : Bool
  points : ℚ
  factor : Factor

/-- One conditional accumulation step of calculate_fraud_risk: when the
condition holds, add the points and append the factor. -/
def applyRule (s : ℚ × List Factor) (r : Rule) : ℚ × List Factor :=
  if r.cond then (s.1 + r.points, s.2 ++ [r.factor]) else s

/-- The five payment-level rules of fraud_engine.py (lines 34-69) in
declaration order, each with its condition on the defaulted fields. -/
def ruleTable (data : InputData) : List Rule :=
  let revenue := data.revenue.getD 0
  let status := lowerStr (data.status.getD "Unknown")
  let payments := data.payments.getD []
  let ein := data.ein.getD ""
  let amounts := payments.map Payment.amount
  [ ⟨decide (ein ∈ EXCLUDED_EINS ∧ 0 < revenue), 50, Factor.excludedEntity⟩,
    ⟨decide (status ≠ "active" ∧ 0 < revenue), 25, Factor.inactiveEntity⟩,
    ⟨decide (payments.length < 3 ∧ 100000 < revenue), 10, Factor.suspiciousFrequency⟩,
    ⟨rule4Triggers amounts, 5, Factor.outlierAmounts⟩,
    ⟨rule5Triggers amounts, 5, Factor.highVariance (cvSq amounts)⟩ ]

/-- Rules 1-5 of calculate_fraud_risk (fraud_engine.py lines 25-69): the
score and factor list accumulated before the optional ML blend. The
source runs the five conditionals in sequence on the mutable pair
(score, factors) started at (0, []); that sequence is this fold over the
declaration-ordered table. -/
def rulesScore (data : InputData) : ℚ × List Factor :=
  (ruleTable data).foldl applyRule (0, [])

/-- The feature dict built at lines 76-81: revenue, capacity, payment
count and revenue / len(payments) (guarded against the empty list). -/
def mkFeatures (revenue : ℚ) (capacity : ℤ) (payments : List Payment) : Features :=
  ⟨revenue, capacity, payments.length,
    if payments.length ≠ 0 then revenue / (payments.length : ℚ) else 0⟩

/-- calculate_fraud_risk (fraud_engine.py lines 25-92): rules 1-5, then
the optional ML blend (entered only when a model is supplied and the
payments list is non-empty; score += prob * 100 * 0.2 and a high-risk
flag when prob * 100 > 80; a caught exception contributes nothing), then
the cap min(score, 100). -/
def calculate_fraud_risk (data : InputData) (ml_model : Option Classifier) :
    ℚ × List Factor :=
  let payments := data.payments.getD []
  let base := rulesScore data
  let blended : ℚ × List Factor :=
    match ml_model with
    | some model =>
      if 0 < payments.length then
        match model (mkFeatures (data.revenue.getD 0) (data.capacity.getD 0) payments) with
        | some p =>
          let mlProb := p * 100
          (base.1 + mlProb * 0.2,
           if 80 < mlProb then base.2 ++ [Factor.mlHighRisk mlProb] else base.2)
        | none => base
      else base
    | none => base
  (min blended.1 100, blended.2)

/-- Category banding of a score (main.py lines 198-203). -/
def risk_category (score : ℚ) : String :=
  if 50 ≤ score then "High" else if 25 ≤ score then "Medium" else "Low"

/-- get_leading_digit (benford.py lines 4-14): the first non-zero digit
of the decimal representation of the absolute value, 0 for the value 0.
For a rational with numerator a and denominator b (both positive), that
digit equals the leading digit of the natural number a * 10^j / b
whenever 10^j > b, because scaling by a power of ten and truncating a
value that stays at least 1 both preserve the leading digit; j is taken
to be the number of base-10 digits of b. -/
def leadingDigit (q : ℚ) : ℕ :=
  let a := q.num.natAbs
  if a = 0 then 0
  else
    let b := q.den
    let j := (Nat.digits 10 b).length
    ((Nat.digits 10 (a * 10 ^ j / b)).getLast?).getD 0

/-- The valid leading-digit sample (benford.py lines 22-25): leading
digits of all amounts, zeros dropped. -/
def validDigits (amounts : List ℚ) : List ℕ :=
  (amounts.map leadingDigit).filter (fun d => 0 < d)

/-- calculate_benford_deviation (benford.py lines 16-52), the rational
part of the report: for each digit 1-9 the actual frequency of that
leading digit in the valid sample, none when the valid sample is empty.
The real-valued columns of the report (theoretical frequency, absolute
deviation and anomaly flag) are functions of these rows and are stated
through benfordAnomaly. -/
def calculate_benford_deviation (amounts : List ℚ) : Option (List (ℕ × ℚ)) :=
  let ds := validDigits amounts
  let total := ds.length
  if total = 0 then none
  else some ([1, 2, 3, 4, 5, 6, 7, 8, 9].map fun d => (d, (ds.count d : ℚ) / total))

/-- The is_anomaly flag of a report row (benford.py lines 35-50):
absolute deviation of the actual frequency from the theoretical Benford
frequency log10(1 + 1/d) strictly above 0.05. -/
def benfordAnomaly (d : ℕ) (f : ℚ) : Prop :=
  |(f : ℝ) - Real.logb 10 (1 + 1 / (d : ℝ))| > 0.05

/-- Scenario A of the spec: revenue 600000, capacity 2, status Active,
no payments. -/
def dataA : InputData := ⟨some 600000, some 2, some "Active", some [], some ""⟩

/-- A record whose only content is a single zero payment; no rule can
trigger on it. -/
def dataZ : InputData := ⟨some 0, some 0, some "Active", some [⟨0, "2024-01-01"⟩], some ""⟩

/-- A record with no payment history (the classifier blend is skipped). -/
def dataE : InputData := ⟨some 0, some 0, some "Active", some [], some ""⟩

/-- A degenerate classifier returning the malformed probability -1. -/
def negClassifier : Classifier := fun _ => some (-1)

/-- A classifier returning probability 1 on every feature row. -/
def oneClassifier : Classifier := fun _ => some 1

/-- A classifier returning probability 1/2 on every feature row. -/
def halfClassifier : Classifier := fun _ => some (1/2)

/-- The scenario D payment list: fourteen payments of 10 and one of
10000. -/
def payments15 : List Payment :=
  List.replicate 14 ⟨10, "2024-01-01"⟩ ++ [⟨10000, "2024-02-01"⟩]

/-- The scenario D amounts. -/
def amounts15 : List ℚ := payments15.map Payment.amount

/-- Folding the accumulation step adds the triggered points to the score
component. -/
theorem foldl_applyRule_fst (rs : List Rule) (s : ℚ × List Factor) :
    (rs.foldl applyRule s).1 = s.1 + (rs.map fun r => if r.cond then r.points else 0).sum := by
  induction rs generalizing s with
  | nil => simp
  | cons r rs ih =>
    simp only [List.foldl_cons, List.map_cons, List.sum_cons, ih, applyRule]
    by_cases h : r.cond <;> simp [h] <;> ring

/-- Folding the accumulation step appends the triggered factors in table
order. -/
theorem foldl_applyRule_snd (rs : List Rule) (s : ℚ × List Factor) :
    (rs.foldl applyRule s).2 =
      s.2 ++ rs.filterMap (fun r => if r.cond then some r.factor else none) := by
  induction rs generalizing s with
  | nil => simp
  | cons r rs ih =>
    simp only [List.foldl_cons, List.filterMap_cons, ih, applyRule]
    by_cases h : r.cond <;> simp [h]

/-- The rule score is the sum of the five conditional contributions. -/
theorem rulesScore_fst (data : InputData) :
    (rulesScore data).1 =
      (if data.ein.getD "" ∈ EXCLUDED_EINS ∧ 0 < data.revenue.getD 0 then (50 : ℚ) else 0)
      + (if lowerStr (data.status.getD "Unknown") ≠ "active" ∧ 0 < data.revenue.getD 0 then 25 else 0)
      + (if (data.payments.getD []).length < 3 ∧ 100000 < data.revenue.getD 0 then 10 else 0)
      + (if rule4Triggers ((data.payments.getD []).map Payment.amount) then 5 else 0)
      + (if rule5Triggers ((data.payments.getD []).map Payment.amount) then 5 else 0) := by
  rw [rulesScore, foldl_applyRule_fst]
  simp only [ruleTable, List.map_cons, List.map_nil, List.sum_cons, List.sum_nil,
    decide_eq_true_eq]
  ring

/-- The rule factors are the declaration-ordered table filtered to the
triggered rules. -/
theorem rulesScore_snd (data : InputData) :
    (rulesScore data).2 =
      (ruleTable data).filterMap (fun r => if r.cond then some r.factor else none) := by
  rw [rulesScore, foldl_applyRule_snd]
  simp

/-- With no classifier the result is the capped rule score with the rule
factors. -/
theorem calculate_fraud_risk_none (data : InputData) :
    calculate_fraud_risk data none = (min (rulesScore data).1 100, (rulesScore data).2) := by
  simp [calculate_fraud_risk]

/-- Evaluation of the rule stage on scenario A: only rule 3 fires. -/
theorem rulesScore_dataA : rulesScore dataA = (10, [Factor.suspiciousFrequency]) := by
  have hA : lowerStr "Active" = "active" := by decide
  have hein : "" ∉ EXCLUDED_EINS := by decide
  have h4 : rule4Triggers ([] : List ℚ) = false := by norm_num [rule4Triggers]
  have h5 : rule5Triggers ([] : List ℚ) = false := by norm_num [rule5Triggers]
  norm_num [rulesScore, ruleTable, dataA, applyRule, hA, hein, h4, h5]

/-- C3: category derivation is a pure function of the final score with
boundary-inclusive thresholds: scores of at least 50 map to High, scores
in [25, 50) map to Medium, and scores below 25 map to Low (so 25 gives
Medium, 50 gives High, anything below 25 gives Low). -/
theorem c3_category_thresholds (s : ℚ) :
    (risk_category s = "High" ↔ 50 ≤ s)
    ∧ (risk_category s = "Medium" ↔ 25 ≤ s ∧ s < 50)
    ∧ (risk_category s = "Low" ↔ s < 25) := by
  unfold risk_category
  split_ifs with h1 h2 <;>
    refine ⟨?_, ?_, ?_⟩ <;> simp_all <;> linarith

/-- C10: the engine is a total function of the input dict; a missing
revenue, capacity, status, payments or ein field behaves exactly as the
documented defaults 0, 0, Unknown, empty payment list and empty string
substituted for it. -/
theorem c10_missing_keys_default (data : InputData) :
    calculate_fraud_risk data none =
      calculate_fraud_risk
        ⟨some (data.revenue.getD 0), some (data.capacity.getD 0),
         some (data.status.getD "Unknown"), some (data.payments.getD []),
         some (data.ein.getD "")⟩ none := by
  simp [calculate_fraud_risk, rulesScore, ruleTable]

/-- C2 counterexample: on revenue 600000, capacity 2, status Active and
no payments the engine returns score 10, not 40, and the category of the
returned score is not Medium. -/
theorem c2_counterexample :
    (calculate_fraud_risk dataA none).1 ≠ 40
    ∧ risk_category (calculate_fraud_risk dataA none).1 ≠ "Medium" := by
  rw [calculate_fraud_risk_none, rulesScore_dataA]
  refine ⟨by norm_num [min_def], ?_⟩
  norm_num [min_def, risk_category]
  decide

/-- C2 (amended): the engine has no revenue-capacity rule; with no
classifier the score and factors are independent of the capacity field,
and scenario A (revenue 600000, capacity 2, status Active, no payments)
triggers only rule 3, giving score 10 and category Low. -/
theorem c2_no_capacity_rule (data : InputData) (c : Option ℤ) :
    calculate_fraud_risk { data with capacity := c } none = calculate_fraud_risk data none
    ∧ calculate_fraud_risk dataA none = (10, [Factor.suspiciousFrequency])
    ∧ risk_category (calculate_fraud_risk dataA none).1 = "Low" := by
  have h : calculate_fraud_risk dataA none = (10, [Factor.suspiciousFrequency]) := by
    rw [calculate_fraud_risk_none, rulesScore_dataA]
    norm_num [min_def]
  refine ⟨by simp [calculate_fraud_risk, rulesScore, ruleTable], h, ?_⟩
  rw [h]
  norm_num [risk_category]

/-- C8: scoring is deterministic (two calls on identical input with no
classifier agree exactly) and the factor list is the declaration-ordered
rule table restricted to the triggered rules, so factors appear in rule
declaration order rather than by point value. -/
theorem c8_deterministic_ordered (data : InputData) :
    calculate_fraud_risk data none = calculate_fraud_risk data none
    ∧ (calculate_fraud_risk data none).2 =
        (ruleTable data).filterMap (fun r => if r.cond then some r.factor else none) := by
  refine ⟨rfl, ?_⟩
  rw [calculate_fraud_risk_none]
  exact rulesScore_snd data

/-- Evaluation of the rule stage on the single-zero-payment record: no
rule fires. -/
theorem rulesScore_dataZ : rulesScore dataZ = (0, []) := by
  have hA : lowerStr "Active" = "active" := by decide
  have hein : "" ∉ EXCLUDED_EINS := by decide
  have h4 : rule4Triggers ([(0 : ℚ)]) = false := by norm_num [rule4Triggers]
  have h5 : rule5Triggers ([(0 : ℚ)]) = false := by norm_num [rule5Triggers]
  norm_num [rulesScore, ruleTable, dataZ, applyRule, hA, hein, h4, h5]

/-- The rule score is never negative: every rule contributes 0 or its
positive point value. -/
theorem rulesScore_nonneg (data : InputData) : 0 ≤ (rulesScore data).1 := by
  rw [rulesScore_fst]
  have h50 : (0 : ℚ) ≤ if data.ein.getD "" ∈ EXCLUDED_EINS ∧ 0 < data.revenue.getD 0
      then (50 : ℚ) else 0 := by split_ifs <;> norm_num
  have h25 : (0 : ℚ) ≤ if lowerStr (data.status.getD "Unknown") ≠ "active"
      ∧ 0 < data.revenue.getD 0 then (25 : ℚ) else 0 := by split_ifs <;> norm_num
  have h10 : (0 : ℚ) ≤ if (data.payments.getD []).length < 3
      ∧ 100000 < data.revenue.getD 0 then (10 : ℚ) else 0 := by split_ifs <;> norm_num
  have h4 : (0 : ℚ) ≤ if rule4Triggers ((data.payments.getD []).map Payment.amount)
      then (5 : ℚ) else 0 := by split_ifs <;> norm_num
  have h5 : (0 : ℚ) ≤ if rule5Triggers ((data.payments.getD []).map Payment.amount)
      then (5 : ℚ) else 0 := by split_ifs <;> norm_num
  linarith

/-- C1 counterexample: a supplied classifier returning the malformed
probability -1 drives the final score to -20, strictly below 0; the
claimed bound fails for arbitrary classifier output. -/
theorem c1_counterexample :
    (calculate_fraud_risk dataZ (some negClassifier)).1 = -20
    ∧ (calculate_fraud_risk dataZ (some negClassifier)).1 < 0 := by
  have hlen : 0 < (dataZ.payments.getD []).length := by decide
  have h : calculate_fraud_risk dataZ (some negClassifier) = (-20, []) := by
    simp only [calculate_fraud_risk, negClassifier, rulesScore_dataZ]
    norm_num [hlen, min_def]
  rw [h]
  norm_num

/-- C1 (amended): whenever every probability the classifier can return is
non-negative (in particular for the documented 0-1 range, or with no
classifier at all), the returned score lies in [0, 100] for every input
record. -/
theorem c1_score_bounds (data : InputData) (ml : Option Classifier)
    (h : ∀ c, ml = some c → ∀ feats p, c feats = some p → 0 ≤ p) :
    0 ≤ (calculate_fraud_risk data ml).1 ∧ (calculate_fraud_risk data ml).1 ≤ 100 := by
  have hbase := rulesScore_nonneg data
  rcases ml with _ | model
  · rw [calculate_fraud_risk_none]
    exact ⟨le_min hbase (by norm_num), min_le_right _ _⟩
  · by_cases hp : 0 < (data.payments.getD []).length
    · rcases hm : model (mkFeatures (data.revenue.getD 0) (data.capacity.getD 0)
        (data.payments.getD [])) with _ | p
      · simp only [calculate_fraud_risk, hp, if_true, hm]
        exact ⟨le_min hbase (by norm_num), min_le_right _ _⟩
      · have hp0 : 0 ≤ p := h model rfl _ p hm
        simp only [calculate_fraud_risk, hp, if_true, hm]
        refine ⟨le_min (by nlinarith) (by norm_num), min_le_right _ _⟩
    · simp only [calculate_fraud_risk, hp, if_false]
      exact ⟨le_min hbase (by norm_num), min_le_right _ _⟩

/-- C1 witness: the bound instantiated at the single-zero-payment record
with a classifier constantly returning probability 1/2. -/
theorem c1_witness :
    (∀ c, (some halfClassifier : Option Classifier) = some c →
      ∀ feats p, c feats = some p → 0 ≤ p)
    ∧ 0 ≤ (calculate_fraud_risk dataZ (some halfClassifier)).1
    ∧ (calculate_fraud_risk dataZ (some halfClassifier)).1 ≤ 100 := by
  have h : ∀ c, (some halfClassifier : Option Classifier) = some c →
      ∀ feats p, c feats = some p → 0 ≤ p := by
    intro c hc feats p hp
    obtain rfl : halfClassifier = c := by injection hc
    have hp2 : (some (1/2 : ℚ)) = some p := hp
    obtain rfl : (1/2 : ℚ) = p := by injection hp2
    norm_num
  exact ⟨h, c1_score_bounds dataZ (some halfClassifier) h⟩

/-- C4: the outlier rule never fires on fewer than 4 payments; with at
least 4 payments it holds exactly when some amount lies strictly outside
the fences [Q1 - 1.5 IQR, Q3 + 1.5 IQR] built from the interpolated
percentiles, and it contributes exactly 5 points inside the rule score
sum. -/
theorem c4_outlier_rule (data : InputData) (amounts : List ℚ)
    (ha : amounts = (data.payments.getD []).map Payment.amount) :
    (amounts.length < 4 → rule4Triggers amounts = false)
    ∧ (4 ≤ amounts.length → (rule4Triggers amounts = true ↔
        ∃ a ∈ amounts,
          percentile amounts 75
              + 1.5 * (percentile amounts 75 - percentile amounts 25) < a
          ∨ a < percentile amounts 25
              - 1.5 * (percentile amounts 75 - percentile amounts 25)))
    ∧ (rulesScore data).1 =
        (if data.ein.getD "" ∈ EXCLUDED_EINS ∧ 0 < data.revenue.getD 0 then (50 : ℚ) else 0)
        + (if lowerStr (data.status.getD "Unknown") ≠ "active"
            ∧ 0 < data.revenue.getD 0 then 25 else 0)
        + (if (data.payments.getD []).length < 3 ∧ 100000 < data.revenue.getD 0 then 10 else 0)
        + (if rule4Triggers amounts then 5 else 0)
        + (if rule5Triggers amounts then 5 else 0) := by
  subst ha
  refine ⟨?_, ?_, rulesScore_fst data⟩
  · intro h
    rw [rule4Triggers, if_neg (by omega)]
  · intro h
    simp only [rule4Triggers, if_pos h, List.any_eq_true, decide_eq_true_eq]

/-- C4 witness: the empty payment list is shorter than 4 and indeed
cannot fire the outlier rule. -/
theorem c4_witness :
    ([] : List ℚ).length < 4 ∧ rule4Triggers ([] : List ℚ) = false :=
  ⟨by decide, (c4_outlier_rule dataE [] rfl).1 (by decide)⟩

/-- The population variance is non-negative. -/
theorem popVar_nonneg (xs : List ℚ) : 0 ≤ popVar xs := by
  rw [popVar]
  split_ifs with h
  · norm_num
  · apply div_nonneg
    · apply List.sum_nonneg
      intro x hx
      obtain ⟨a, _, rfl⟩ := List.mem_map.mp hx
      positivity
    · positivity

/-- C5: the variance rule never fires on fewer than 2 payments or when
the mean is 0 (no division by zero happens); with at least 2 payments
and a positive mean it holds exactly when the coefficient of variation
population-standard-deviation / mean exceeds 1.5, and it contributes
exactly 5 points inside the rule score sum. -/
theorem c5_variance_rule (data : InputData) (amounts : List ℚ)
    (ha : amounts = (data.payments.getD []).map Payment.amount) :
    (amounts.length < 2 ∨ meanQ amounts = 0 → rule5Triggers amounts = false)
    ∧ (2 ≤ amounts.length → 0 < meanQ amounts →
        (rule5Triggers amounts = true ↔
          (1.5 : ℝ) < Real.sqrt ((popVar amounts : ℚ) : ℝ) / ((meanQ amounts : ℚ) : ℝ)))
    ∧ (rulesScore data).1 =
        (if data.ein.getD "" ∈ EXCLUDED_EINS ∧ 0 < data.revenue.getD 0 then (50 : ℚ) else 0)
        + (if lowerStr (data.status.getD "Unknown") ≠ "active"
            ∧ 0 < data.revenue.getD 0 then 25 else 0)
        + (if (data.payments.getD []).length < 3 ∧ 100000 < data.revenue.getD 0 then 10 else 0)
        + (if rule4Triggers amounts then 5 else 0)
        + (if rule5Triggers amounts then 5 else 0) := by
  subst ha
  set amounts := (data.payments.getD []).map Payment.amount with hdef
  refine ⟨?_, ?_, rulesScore_fst data⟩
  · rintro (h | h)
    · rw [rule5Triggers, if_neg (by omega)]
    · rw [rule5Triggers]
      split_ifs with h1
      · simp only [h, lt_irrefl, if_false]
      · rfl
  · intro h2 hm
    have h1 : 1 < amounts.length := by omega
    simp only [rule5Triggers, if_pos h1, if_pos hm, decide_eq_true_eq]
    have hmR : (0 : ℝ) < ((meanQ amounts : ℚ) : ℝ) := by exact_mod_cast hm
    have hVR : (0 : ℝ) ≤ ((popVar amounts : ℚ) : ℝ) := by
      exact_mod_cast popVar_nonneg amounts
    rw [lt_div_iff₀ hmR, Real.lt_sqrt (by positivity),
      show (1.5 : ℝ) = ((1.5 : ℚ) : ℝ) by norm_num]
    exact_mod_cast Iff.rfl

/-- C5 witness: the empty amount list is shorter than 2 and indeed
cannot fire the variance rule. -/
theorem c5_witness :
    (([] : List ℚ).length < 2 ∨ meanQ [] = 0) ∧ rule5Triggers ([] : List ℚ) = false :=
  ⟨Or.inl (by decide), (c5_variance_rule dataE [] rfl).1 (Or.inl (by decide))⟩

/-- Evaluation of the rule stage on the empty-payment zero-revenue
record: no rule fires. -/
theorem rulesScore_dataE : rulesScore dataE = (0, []) := by
  have hA : lowerStr "Active" = "active" := by decide
  have hein : "" ∉ EXCLUDED_EINS := by decide
  have h4 : rule4Triggers ([] : List ℚ) = false := by norm_num [rule4Triggers]
  have h5 : rule5Triggers ([] : List ℚ) = false := by norm_num [rule5Triggers]
  norm_num [rulesScore, ruleTable, dataE, applyRule, hA, hein, h4, h5]

/-- C6 counterexample: with an empty payment list a supplied classifier
constantly returning probability 1 contributes nothing: the engine
returns 0 where the claimed unconditional blend would give 20. -/
theorem c6_counterexample :
    (calculate_fraud_risk dataE (some oneClassifier)).1 = 0
    ∧ (rulesScore dataE).1 + 1 * 100 * 0.2 = 20
    ∧ (0 : ℚ) ≠ 20 := by
  have hlen : ¬ 0 < (dataE.payments.getD []).length := by decide
  refine ⟨?_, ?_, by norm_num⟩
  · simp only [calculate_fraud_risk, hlen, if_false, rulesScore_dataE]
    norm_num [min_def]
  · rw [rulesScore_dataE]
    norm_num

/-- C6 (amended): whenever a classifier is supplied and the payment list
is non-empty, a returned probability p contributes exactly p * 100 * 0.2
to the score before the final clamp, the high-risk factor is appended
exactly when p exceeds 0.8, and a classifier failure yields exactly the
no-classifier result (the rule-based score is still returned). -/
theorem c6_ml_blend (data : InputData) (model : Classifier)
    (h : 0 < (data.payments.getD []).length) :
    calculate_fraud_risk data (some model) =
      match model (mkFeatures (data.revenue.getD 0) (data.capacity.getD 0)
          (data.payments.getD [])) with
      | some p =>
        (min ((rulesScore data).1 + p * 100 * 0.2) 100,
         (rulesScore data).2 ++
           (if (0.8 : ℚ) < p then [Factor.mlHighRisk (p * 100)] else []))
      | none => calculate_fraud_risk data none := by
  rcases hm : model (mkFeatures (data.revenue.getD 0) (data.capacity.getD 0)
      (data.payments.getD [])) with _ | p
  · simp only [calculate_fraud_risk, h, if_true, hm]
  · simp only [calculate_fraud_risk, h, if_true, hm]
    by_cases hc : (0.8 : ℚ) < p
    · rw [if_pos hc, if_pos (show (80 : ℚ) < p * 100 by linarith)]
    · rw [if_neg hc, if_neg (show ¬ (80 : ℚ) < p * 100 from fun hx => hc (by linarith))]
      simp
  -- the result shape: score gets the additive term p * 100 * 0.2 and the
  -- factor list the conditional flag, in both presentations

/-- C6 witness: the blend applied to the single-zero-payment record with
the constant probability 1/2 classifier: the contribution is exactly 10. -/
theorem c6_witness :
    0 < (dataZ.payments.getD []).length
    ∧ calculate_fraud_risk dataZ (some halfClassifier) = (10, []) := by
  have hlen : 0 < (dataZ.payments.getD []).length := by decide
  have happ := c6_ml_blend dataZ halfClassifier hlen
  have hm : halfClassifier (mkFeatures (dataZ.revenue.getD 0) (dataZ.capacity.getD 0)
      (dataZ.payments.getD [])) = some (1/2) := rfl
  rw [hm] at happ
  refine ⟨hlen, ?_⟩
  rw [happ]
  norm_num [rulesScore_dataZ, min_def]

/-- A leading digit is at most 9: it is a base-10 digit (or the 0
default). -/
theorem leadingDigit_le_nine (q : ℚ) : leadingDigit q ≤ 9 := by
  simp only [leadingDigit]
  split_ifs with h
  · norm_num
  · rcases hL : (Nat.digits 10
        (q.num.natAbs * 10 ^ (Nat.digits 10 q.den).length / q.den)).getLast? with _ | d
    · simp [hL]
    · simp only [hL, Option.getD_some]
      obtain ⟨hne, heq⟩ := List.mem_getLast?_eq_getLast (Option.mem_def.2 hL)
      have hmem : d ∈ Nat.digits 10
          (q.num.natAbs * 10 ^ (Nat.digits 10 q.den).length / q.den) := by
        rw [heq]
        exact List.getLast_mem hne
      have := Nat.digits_lt_base (by norm_num) hmem
      omega

/-- Every element of the valid sample is a digit between 1 and 9. -/
theorem validDigits_mem (amounts : List ℚ) : ∀ x ∈ validDigits amounts, 1 ≤ x ∧ x ≤ 9 := by
  intro x hx
  simp only [validDigits, List.mem_filter, List.mem_map, decide_eq_true_eq] at hx
  obtain ⟨⟨q, _, rfl⟩, hpos⟩ := hx
  exact ⟨hpos, leadingDigit_le_nine q⟩

/-- The per-digit counts of a list of digits 1-9 sum to its length. -/
theorem count_digits_sum (ds : List ℕ) (h : ∀ x ∈ ds, 1 ≤ x ∧ x ≤ 9) :
    ds.count 1 + ds.count 2 + ds.count 3 + ds.count 4 + ds.count 5
      + ds.count 6 + ds.count 7 + ds.count 8 + ds.count 9 = ds.length := by
  induction ds with
  | nil => simp
  | cons x t ih =>
    have hx := h x (List.mem_cons_self x t)
    have ht : ∀ y ∈ t, 1 ≤ y ∧ y ≤ 9 := fun y hy => h y (List.mem_cons_of_mem x hy)
    have iht := ih ht
    have hx9 : x = 1 ∨ x = 2 ∨ x = 3 ∨ x = 4 ∨ x = 5 ∨ x = 6 ∨ x = 7 ∨ x = 8 ∨ x = 9 := by
      omega
    rcases hx9 with rfl | rfl | rfl | rfl | rfl | rfl | rfl | rfl | rfl <;>
      simp [List.count_cons] <;> omega

/-- C7: the Benford analyzer returns the null report exactly when the
valid leading-digit sample is empty; on a non-empty sample the report
has one row per digit 1-9, the nine actual frequencies sum to 1, and a
row's anomaly flag holds exactly when the actual frequency deviates from
the theoretical frequency log10(1 + 1/d) by strictly more than 0.05. -/
theorem c7_benford (amounts : List ℚ) :
    (calculate_benford_deviation amounts = none ↔ validDigits amounts = [])
    ∧ (∀ rows, calculate_benford_deviation amounts = some rows →
        rows.length = 9
        ∧ (rows.map Prod.snd).sum = 1
        ∧ ∀ r ∈ rows, (benfordAnomaly r.1 r.2 ↔
            |((r.2 : ℚ) : ℝ) - Real.logb 10 (1 + 1 / ((r.1 : ℕ) : ℝ))| > 0.05)) := by
  constructor
  · rw [calculate_benford_deviation]
    split_ifs with h
    · exact iff_of_true rfl (List.length_eq_zero.mp h)
    · exact iff_of_false (by simp) (fun hnil => h (by rw [hnil]; rfl))
  · intro rows hrows
    have hne : (validDigits amounts).length ≠ 0 := by
      intro h0
      rw [calculate_benford_deviation, if_pos h0] at hrows
      exact absurd hrows (by simp)
    have hrows' : rows = [1, 2, 3, 4, 5, 6, 7, 8, 9].map
        (fun d => (d, ((validDigits amounts).count d : ℚ) / ((validDigits amounts).length : ℚ))) := by
      rw [calculate_benford_deviation, if_neg hne] at hrows
      exact (Option.some.inj hrows).symm
    subst hrows'
    refine ⟨by simp, ?_, ?_⟩
    · have hsum := count_digits_sum (validDigits amounts) (validDigits_mem amounts)
      have hT : ((validDigits amounts).length : ℚ) ≠ 0 := by exact_mod_cast hne
      simp only [List.map_map, Function.comp, List.map_cons, List.map_nil,
        List.sum_cons, List.sum_nil, add_zero]
      rw [div_add_div_same, div_add_div_same, div_add_div_same, div_add_div_same,
        div_add_div_same, div_add_div_same, div_add_div_same, div_add_div_same]
      rw [div_eq_one_iff_eq hT]
      norm_cast
      omega
    · intro r hr
      exact Iff.rfl

/-- C7 witness: the report on the one-element list [3]: the valid sample
is the single digit 3 and the frequencies sum to 1. -/
theorem c7_witness :
    calculate_benford_deviation [(3 : ℚ)] =
      some [(1, 0), (2, 0), (3, 1), (4, 0), (5, 0), (6, 0), (7, 0), (8, 0), (9, 0)]
    ∧ (([((1 : ℕ), (0 : ℚ)), (2, 0), (3, 1), (4, 0), (5, 0), (6, 0), (7, 0), (8, 0),
        (9, 0)].map Prod.snd).sum = 1) := by
  have heval : calculate_benford_deviation [(3 : ℚ)] =
      some [(1, 0), (2, 0), (3, 1), (4, 0), (5, 0), (6, 0), (7, 0), (8, 0), (9, 0)] := by
    norm_num [calculate_benford_deviation, validDigits, leadingDigit, List.count_cons]
  have h := ((c7_benford [(3 : ℚ)]).2 _ heval).2.1
  exact ⟨heval, h⟩

/-- The scenario D amounts written out. -/
theorem amounts15_ex :
    amounts15 = [10, 10, 10, 10, 10, 10, 10, 10, 10, 10, 10, 10, 10, 10, 10000] := rfl

/-- The scenario D amount list is already sorted. -/
theorem sort15 :
    List.insertionSort (· ≤ ·)
        [10, 10, 10, 10, 10, 10, 10, 10, 10, 10, 10, 10, 10, 10, (10000 : ℚ)] =
      [10, 10, 10, 10, 10, 10, 10, 10, 10, 10, 10, 10, 10, 10, 10000] := by decide

/-- The 25th percentile of the scenario D amounts is 10. -/
theorem p25_15 : percentile amounts15 25 = 10 := by
  rw [amounts15_ex]
  simp only [percentile, sort15]
  simp only [show List.length
      [10, 10, 10, 10, 10, 10, 10, 10, 10, 10, 10, 10, 10, 10, (10000 : ℚ)] = 15 from rfl]
  simp only [show (25 : ℚ) * (((15 : ℕ) : ℚ) - 1) / 100 = 7 / 2 by norm_num]
  simp only [show (⌊(7 / 2 : ℚ)⌋ : ℤ) = 3 by norm_num,
    show (⌈(7 / 2 : ℚ)⌉ : ℤ) = 4 by norm_num [Int.ceil_eq_iff]]
  simp only [show ((3 : ℤ).toNat) = 3 from rfl, show ((4 : ℤ).toNat) = 4 from rfl]
  simp only
    [show [10, 10, 10, 10, 10, 10, 10, 10, 10, 10, 10, 10, 10, 10, (10000 : ℚ)].getD 3 0
        = 10 by decide,
     show [10, 10, 10, 10, 10, 10, 10, 10, 10, 10, 10, 10, 10, 10, (10000 : ℚ)].getD 4 0
        = 10 by decide]
  norm_num

/-- The 75th percentile of the scenario D amounts is 10. -/
theorem p75_15 : percentile amounts15 75 = 10 := by
  rw [amounts15_ex]
  simp only [percentile, sort15]
  simp only [show List.length
      [10, 10, 10, 10, 10, 10, 10, 10, 10, 10, 10, 10, 10, 10, (10000 : ℚ)] = 15 from rfl]
  simp only [show (75 : ℚ) * (((15 : ℕ) : ℚ) - 1) / 100 = 21 / 2 by norm_num]
  simp only [show (⌊(21 / 2 : ℚ)⌋ : ℤ) = 10 by norm_num,
    show (⌈(21 / 2 : ℚ)⌉ : ℤ) = 11 by norm_num [Int.ceil_eq_iff]]
  simp only [show ((10 : ℤ).toNat) = 10 from rfl, show ((11 : ℤ).toNat) = 11 from rfl]
  simp only
    [show [10, 10, 10, 10, 10, 10, 10, 10, 10, 10, 10, 10, 10, 10, (10000 : ℚ)].getD 10 0
        = 10 by decide,
     show [10, 10, 10, 10, 10, 10, 10, 10, 10, 10, 10, 10, 10, 10, (10000 : ℚ)].getD 11 0
        = 10 by decide]
  norm_num

/-- The mean of the scenario D amounts is 676. -/
theorem mean15 : meanQ amounts15 = 676 := by
  rw [amounts15_ex]
  norm_num [meanQ, List.sum_cons, List.sum_nil]

/-- The population variance of the scenario D amounts is 6209784. -/
theorem var15 : popVar amounts15 = 6209784 := by
  have hm : meanQ [10, 10, 10, 10, 10, 10, 10, 10, 10, 10, 10, 10, 10, 10, (10000 : ℚ)]
      = 676 := by
    norm_num [meanQ, List.sum_cons, List.sum_nil]
  rw [amounts15_ex]
  norm_num [popVar, hm, List.map_cons, List.map_nil, List.sum_cons, List.sum_nil]

/-- The outlier rule fires on the scenario D amounts. -/
theorem rule4_15 : rule4Triggers amounts15 = true := by
  have hlen : amounts15.length = 15 := by rw [amounts15_ex]; rfl
  simp only [rule4Triggers, p25_15, p75_15, hlen]
  rw [if_pos (by norm_num)]
  rw [List.any_eq_true]
  refine ⟨10000, ?_, ?_⟩
  · rw [amounts15_ex]
    norm_num [List.mem_cons]
  · norm_num [decide_eq_true_eq]

/-- The variance rule fires on the scenario D amounts. -/
theorem rule5_15 : rule5Triggers amounts15 = true := by
  have hlen : amounts15.length = 15 := by rw [amounts15_ex]; rfl
  simp only [rule5Triggers, mean15, var15, hlen]
  norm_num [decide_eq_true_eq]

/-- C9: on the scenario D payment list (fourteen 10s and one 10000) both
the outlier rule and the variance rule fire, and for every revenue,
status and ein the final score is the aggregate rules 1-2 contribution
plus exactly 10 (rule 3 cannot fire with 15 payments and the cap at 100
is never reached, the sum staying at most 85). -/
theorem c9_scenario_d (rev : Option ℚ) (cap : Option ℤ) (st : Option String)
    (ein : Option String) :
    rule4Triggers amounts15 = true
    ∧ rule5Triggers amounts15 = true
    ∧ (calculate_fraud_risk ⟨rev, cap, st, some payments15, ein⟩ none).1 =
        (if ein.getD "" ∈ EXCLUDED_EINS ∧ 0 < rev.getD 0 then (50 : ℚ) else 0)
        + (if lowerStr (st.getD "Unknown") ≠ "active" ∧ 0 < rev.getD 0 then 25 else 0)
        + 10 := by
  refine ⟨rule4_15, rule5_15, ?_⟩
  have hif3 : (if (15 : ℕ) < 3 ∧ 100000 < rev.getD 0 then (10 : ℚ) else 0) = 0 := by
    have hcon : ¬((15 : ℕ) < 3 ∧ 100000 < rev.getD 0) := fun hcon => absurd hcon.1 (by norm_num)
    rw [if_neg hcon]
  have hf := rulesScore_fst ⟨rev, cap, st, some payments15, ein⟩
  simp only [Option.getD_some, show payments15.map Payment.amount = amounts15 from rfl,
    show payments15.length = 15 from rfl, rule4_15, rule5_15, eq_self_iff_true, if_true,
    hif3, add_zero] at hf
  rw [calculate_fraud_risk_none]
  dsimp only
  rw [hf]
  split_ifs <;> norm_num [min_def]
